import Mathlib

/-
Verification of the webanim core: the structured error taxonomy with
visibility routing (src/errors.ts), the initialization pipeline and the
per-frame render loop (src/main.ts), and the logger collaborator
(src/logger.ts).  The TypeScript code is shallowly embedded: enumerated
string-literal types become inductive types, the template-literal
ErrorCode type becomes a pair, classes become structures with their
methods as functions, and the async control flow of main becomes a pure
function over an environment record describing the host responses.
Note on naming: the specification renames two surfaces; its surface
called api is the source surface webgpu, and its surface called
display_target is the source surface canvas.
-/

namespace WebAnim

/-- ErrorType from src/errors.ts: the four failure kinds. -/
inductive ErrorType
  | unavailable
  | not_found
  | failed
  | initialization_failed
  deriving DecidableEq, Repr, Fintype

/-- Surface from src/errors.ts: the six subsystem surfaces, with the
source names (the spec calls webgpu api and canvas display_target). -/
inductive Surface
  | webgpu
  | adapter
  | device
  | context
  | canvas
  | pipeline
  deriving DecidableEq, Repr, Fintype

/-- ErrorCode from src/errors.ts: the template-literal type
ErrorType:Surface, embedded as the pair of its two components. -/
structure ErrorCode where
  type : ErrorType
  surface : Surface
  deriving DecidableEq, Repr, Fintype

/-- ErrorVisibility from src/errors.ts. -/
inductive ErrorVisibility
  | user
  | log
  | both
  deriving DecidableEq, Repr, Fintype

/-- visibilityBySurface from src/errors.ts: the fixed per-surface
visibility table. -/
def visibilityBySurface : Surface → ErrorVisibility
  | .webgpu => .user
  | .adapter => .user
  | .device => .log
  | .context => .user
  | .canvas => .user
  | .pipeline => .log

/-- getMessageByErrorCode from src/errors.ts: exact-match switch on the
six concrete codes, with the default fallback branch. -/
def getMessageByErrorCode : ErrorCode → String
  | ⟨.unavailable, .webgpu⟩ => "WebGPU is not available in this environment."
  | ⟨.not_found, .canvas⟩ => "Canvas element not found."
  | ⟨.not_found, .adapter⟩ => "No suitable GPU adapter found."
  | ⟨.failed, .device⟩ => "Failed to request a GPU device."
  | ⟨.initialization_failed, .context⟩ => "Failed to initialize WebGPU canvas context."
  | ⟨.failed, .pipeline⟩ => "Failed to create render pipeline."
  | _ => "Something went wrong. Please try again later."

/-- A JavaScript runtime value, as far as the embedded code observes one:
the cause passed to an AppError is typed unknown in the source and is only
ever tested for truthiness or carried along opaquely.  Numbers are
modelled as integers (the falsy number of interest is 0). -/
inductive JSValue
  | vUndefined
  | vNull
  | vBool (b : Bool)
  | vNum (n : Int)
  | vStr (s : String)
  | vObj (id : Nat)
  deriving DecidableEq, Repr

/-- JavaScript truthiness of a JSValue, as used by the if tests in
AppError.toJSON. -/
def JSValue.truthy : JSValue → Bool
  | .vUndefined => false
  | .vNull => false
  | .vBool b => b
  | .vNum n => n != 0
  | .vStr s => s != ""
  | .vObj _ => true

/-- Truthiness of the stack field, whose source type is string or
undefined (undefined and the empty string are falsy). -/
def stackTruthy : Option String → Bool
  | some s => s != ""
  | none => false

/-- AppError from src/errors.ts: the fields set by the constructor.
The constructor splits the code string into its type and surface parts,
stores the cause, derives the message from the code, and the platform
assigns the stack. -/
structure AppError where
  type : ErrorType
  surface : Surface
  code : ErrorCode
  cause : JSValue
  message : String
  stack : Option String
  deriving DecidableEq, Repr

/-- The AppError constructor from src/errors.ts: new AppError(errorCode,
cause).  The split of the code string is the projection to the two
components; an omitted cause argument is the undefined value; the stack
is whatever the platform assigned. -/
def AppError.ofCode (errorCode : ErrorCode) (cause : JSValue) (stack : Option String) :
    AppError :=
  { type := errorCode.type
    surface := errorCode.surface
    code := errorCode
    cause := cause
    message := getMessageByErrorCode errorCode
    stack := stack }

/-- AppError.getVisibility from src/errors.ts. -/
def AppError.getVisibility (e : AppError) : ErrorVisibility :=
  visibilityBySurface e.surface

/-- AppError.shouldShowToUser from src/errors.ts. -/
def AppError.shouldShowToUser (e : AppError) : Bool :=
  let visibility := e.getVisibility
  visibility == .user || visibility == .both

/-- AppError.shouldLog from src/errors.ts. -/
def AppError.shouldLog (e : AppError) : Bool :=
  let visibility := e.getVisibility
  visibility == .log || visibility == .both

/-- The shape returned by AppError.toJSON: cause and stack are optional
properties, present only when the corresponding if test passed. -/
structure ErrorJSON where
  code : ErrorCode
  message : String
  type : ErrorType
  surface : Surface
  visibility : ErrorVisibility
  cause : Option JSValue
  stack : Option String
  deriving DecidableEq, Repr

/-- AppError.toJSON from src/errors.ts: the five always-present fields,
then cause is added only if this.cause is truthy and stack only if
this.stack is truthy. -/
def AppError.toJSON (e : AppError) : ErrorJSON :=
  { code := e.code
    message := e.message
    type := e.type
    surface := e.surface
    visibility := e.getVisibility
    cause := if e.cause.truthy then some e.cause else none
    stack := if stackTruthy e.stack then e.stack else none }

/-- WebGPUUnavailableError from src/errors.ts. -/
def WebGPUUnavailableError (cause : JSValue) (stack : Option String) : AppError :=
  AppError.ofCode ⟨.unavailable, .webgpu⟩ cause stack

/-- CanvasNotFoundError from src/errors.ts. -/
def CanvasNotFoundError (cause : JSValue) (stack : Option String) : AppError :=
  AppError.ofCode ⟨.not_found, .canvas⟩ cause stack

/-- AdapterNotFoundError from src/errors.ts. -/
def AdapterNotFoundError (cause : JSValue) (stack : Option String) : AppError :=
  AppError.ofCode ⟨.not_found, .adapter⟩ cause stack

/-- DeviceRequestFailedError from src/errors.ts. -/
def DeviceRequestFailedError (cause : JSValue) (stack : Option String) : AppError :=
  AppError.ofCode ⟨.failed, .device⟩ cause stack

/-- ContextInitFailedError from src/errors.ts. -/
def ContextInitFailedError (cause : JSValue) (stack : Option String) : AppError :=
  AppError.ofCode ⟨.initialization_failed, .context⟩ cause stack

/-- PipelineCreationFailedError from src/errors.ts. -/
def PipelineCreationFailedError (cause : JSValue) (stack : Option String) : AppError :=
  AppError.ofCode ⟨.failed, .pipeline⟩ cause stack

deriving instance DecidableEq for Except

deriving instance BEq for Except

/-- A value thrown or logged by the program: either an AppError raised by
the initialization pipeline, or an opaque platform value raised inside a
frame. -/
inductive Thrown
  | app (e : AppError)
  | js (v : JSValue)
  deriving DecidableEq, Repr

/-- A call to logger.error from src/logger.ts: the error argument and the
phase tag from the context map.  The logger only writes in development
mode and wraps non-Error values; the record captures the call itself. -/
structure LogRecord where
  payload : Thrown
  phase : String
  deriving DecidableEq, Repr

/-- The five pipeline steps of main from src/main.ts, in source order. -/
inductive Step
  | surfaceLookup
  | capabilityCheck
  | adapterRequest
  | deviceRequest
  | contextConfig
  deriving DecidableEq, Repr

/-- The canonical order of the five steps in main. -/
def stepOrder : List Step :=
  [.surfaceLookup, .capabilityCheck, .adapterRequest, .deviceRequest, .contextConfig]

/-- PipelineState of the specification, realized over the progress points
of main in src/main.ts: each forward state is reached when the
corresponding statement of main completes, Running when main schedules
the first frame, Failed when main throws. -/
inductive PipelineState
  | Idle
  | TargetResolved
  | CapabilityChecked
  | AdapterAcquired
  | DeviceAcquired
  | ContextConfigured
  | Running
  | Failed (code : ErrorCode)
  deriving DecidableEq, Repr

/-- The forward chain of pipeline states, in order. -/
def stateChain : List PipelineState :=
  [.Idle, .TargetResolved, .CapabilityChecked, .AdapterAcquired,
   .DeviceAcquired, .ContextConfigured, .Running]

/-- The host environment observed by main in src/main.ts: the result of
each external call it makes.  getElementById yields an element or null;
the gpu property is present in navigator or not; requestAdapter resolves
to an adapter or null; requestDevice resolves or rejects with a cause;
getContext yields a context or null. -/
structure Env where
  canvas : Option Unit
  gpuAvailable : Bool
  adapter : Option Unit
  deviceResult : Except JSValue Unit
  context : Option Unit
  deriving DecidableEq, Repr

/-- The observable outcome of one run of main in src/main.ts, before the
top-level catch: which steps were attempted, the pipeline states visited
in order, the returned or thrown value, and how many times main itself
called requestAnimationFrame. -/
structure MainResult where
  stepsAttempted : List Step
  states : List PipelineState
  outcome : Except AppError Unit
  rafCalls : Nat
  deriving DecidableEq, Repr

/-- The body of main from src/main.ts: straight-line early-throw code.
Each failing external call throws the corresponding AppError constructor
with no cause, except the device request whose rejection value is wrapped
as the cause of DeviceRequestFailedError.  On full success main calls
requestAnimationFrame once and returns. -/
def mainRun (env : Env) : MainResult :=
  match env.canvas with
  | none =>
    { stepsAttempted := [.surfaceLookup]
      states := [.Idle, .Failed ⟨.not_found, .canvas⟩]
      outcome := .error (CanvasNotFoundError .vUndefined none)
      rafCalls := 0 }
  | some _ =>
    if env.gpuAvailable = false then
      { stepsAttempted := [.surfaceLookup, .capabilityCheck]
        states := [.Idle, .TargetResolved, .Failed ⟨.unavailable, .webgpu⟩]
        outcome := .error (WebGPUUnavailableError .vUndefined none)
        rafCalls := 0 }
    else
      match env.adapter with
      | none =>
        { stepsAttempted := [.surfaceLookup, .capabilityCheck, .adapterRequest]
          states := [.Idle, .TargetResolved, .CapabilityChecked,
                     .Failed ⟨.not_found, .adapter⟩]
          outcome := .error (AdapterNotFoundError .vUndefined none)
          rafCalls := 0 }
      | some _ =>
        match env.deviceResult with
        | .error x =>
          { stepsAttempted := [.surfaceLookup, .capabilityCheck, .adapterRequest,
                               .deviceRequest]
            states := [.Idle, .TargetResolved, .CapabilityChecked, .AdapterAcquired,
                       .Failed ⟨.failed, .device⟩]
            outcome := .error (DeviceRequestFailedError x none)
            rafCalls := 0 }
        | .ok _ =>
          match env.context with
          | none =>
            { stepsAttempted := stepOrder
              states := [.Idle, .TargetResolved, .CapabilityChecked, .AdapterAcquired,
                         .DeviceAcquired, .Failed ⟨.initialization_failed, .context⟩]
              outcome := .error (ContextInitFailedError .vUndefined none)
              rafCalls := 0 }
          | some _ =>
            { stepsAttempted := stepOrder
              states := stateChain
              outcome := .ok ()
              rafCalls := 1 }

/-- The top-level main().catch handler from src/main.ts: a thrown error
is reported once through logger.error tagged phase main_initialization; a
normal return logs nothing. -/
def mainTop (env : Env) : MainResult × List LogRecord :=
  let r := mainRun env
  match r.outcome with
  | .ok _ => (r, [])
  | .error e => (r, [⟨.app e, "main_initialization"⟩])

/-- The host responses observed by one invocation of frame in
src/main.ts: each of the four GPU steps either succeeds or throws a
platform value.  Step one is getCurrentTexture().createView(), step two
is createCommandEncoder and beginRenderPass, step three is pass.end(),
step four is finish() and queue.submit(). -/
structure FrameEnv where
  acquireResult : Except JSValue Unit
  beginResult : Except JSValue Unit
  endResult : Except JSValue Unit
  submitResult : Except JSValue Unit
  deriving DecidableEq, Repr

/-- The observable outcome of one invocation of frame in src/main.ts:
whether a command buffer was submitted, the logger.error calls made,
whether requestAnimationFrame was called for the next frame, and the
value the invocation propagated to its caller, if any. -/
structure FrameResult where
  submitted : Bool
  logs : List LogRecord
  rescheduled : Bool
  propagated : Option JSValue
  deriving DecidableEq, Repr

/-- The result produced when the catch block of frame handles a thrown
value: it logs once tagged phase render_frame and does nothing else — in
particular it neither rethrows nor calls requestAnimationFrame, since the
requestAnimationFrame(frame) call sits inside the try block after the
submit. -/
def FrameResult.caught (e : JSValue) : FrameResult :=
  { submitted := false
    logs := [⟨.js e, "render_frame"⟩]
    rescheduled := false
    propagated := none }

/-- The frame function from src/main.ts: the four GPU steps and the
requestAnimationFrame call in one try block, with a catch that logs the
error tagged phase render_frame and falls through. -/
def frame (fe : FrameEnv) : FrameResult :=
  match fe.acquireResult with
  | .error e => .caught e
  | .ok _ =>
    match fe.beginResult with
    | .error e => .caught e
    | .ok _ =>
      match fe.endResult with
      | .error e => .caught e
      | .ok _ =>
        match fe.submitResult with
        | .error e => .caught e
        | .ok _ =>
          { submitted := true
            logs := []
            rescheduled := true
            propagated := none }

/-- The first failing step result of a frame environment, in the order
the source executes the steps; none when all four steps succeed. -/
def firstFailure (fe : FrameEnv) : Option JSValue :=
  match fe.acquireResult with
  | .error e => some e
  | .ok _ =>
    match fe.beginResult with
    | .error e => some e
    | .ok _ =>
      match fe.endResult with
      | .error e => some e
      | .ok _ =>
        match fe.submitResult with
        | .error e => some e
        | .ok _ => none

/-- The render loop driven by the frame-scheduling facility: invocation i
runs frame on the host responses sched i, and the next invocation runs
exactly when the previous one called requestAnimationFrame.  Fuel bounds
the observation window; the list collects the results of the invocations
that actually ran. -/
def runLoop (sched : Nat → FrameEnv) : Nat → Nat → List FrameResult
  | _, 0 => []
  | i, fuel + 1 =>
    let r := frame (sched i)
    r :: (if r.rescheduled then runLoop sched (i + 1) fuel else [])

/-- The message table of the specification, written from its words: the
six defined codes with their fixed entries.  Used to compare the spec
table against the source switch. -/
def specMessageTable : List (ErrorCode × String) :=
  [ (⟨.unavailable, .webgpu⟩, "WebGPU is not available in this environment.")
  , (⟨.not_found, .canvas⟩, "Canvas element not found.")
  , (⟨.not_found, .adapter⟩, "No suitable GPU adapter found.")
  , (⟨.failed, .device⟩, "Failed to request a GPU device.")
  , (⟨.initialization_failed, .context⟩, "Failed to initialize WebGPU canvas context.")
  , (⟨.failed, .pipeline⟩, "Failed to create render pipeline.") ]

/-- Claim C2: the message-classification function is total; every code
with an exact table entry gets that entry and every other code gets the
fallback string.  Totality is the totality of the Lean function over all
24 codes; the equation identifies the switch with table lookup plus
fallback. -/
theorem C2_message_total :
    ∀ c : ErrorCode,
      getMessageByErrorCode c =
        ((specMessageTable.lookup c).getD "Something went wrong. Please try again later.") := by
  decide

/-- Claim C3: visibility is a pure function of Surface alone.  Two
AppErrors with the same surface but any kinds, causes or stacks have the
same visibility, and that value is the fixed table (spec surface api is
source webgpu, spec surface display_target is source canvas). -/
theorem C3_visibility_pure :
    (∀ (s : Surface) (t₁ t₂ : ErrorType) (c₁ c₂ : JSValue) (st₁ st₂ : Option String),
        (AppError.ofCode ⟨t₁, s⟩ c₁ st₁).getVisibility =
          (AppError.ofCode ⟨t₂, s⟩ c₂ st₂).getVisibility) ∧
    visibilityBySurface .webgpu = .user ∧
    visibilityBySurface .adapter = .user ∧
    visibilityBySurface .device = .log ∧
    visibilityBySurface .context = .user ∧
    visibilityBySurface .canvas = .user ∧
    visibilityBySurface .pipeline = .log := by
  refine ⟨fun s t₁ t₂ c₁ c₂ st₁ st₂ => rfl, rfl, rfl, rfl, rfl, rfl, rfl⟩

/-- Claim C4: for every AppError, shouldShowToUser is true exactly when
its visibility is user or both, and shouldLog is true exactly when its
visibility is log or both. -/
theorem C4_should_show_should_log :
    ∀ e : AppError,
      (e.shouldShowToUser = true ↔
        (e.getVisibility = .user ∨ e.getVisibility = .both)) ∧
      (e.shouldLog = true ↔
        (e.getVisibility = .log ∨ e.getVisibility = .both)) := by
  intro e
  cases h : e.getVisibility <;>
    simp [AppError.shouldShowToUser, AppError.shouldLog, h]

/-- A frame environment whose image acquisition step throws, while every
later step would succeed. -/
def failAcquireEnv : FrameEnv :=
  { acquireResult := .error (.vObj 0)
    beginResult := .ok ()
    endResult := .ok ()
    submitResult := .ok () }

/-- A frame environment in which all four steps succeed. -/
def okFrameEnv : FrameEnv :=
  { acquireResult := .ok ()
    beginResult := .ok ()
    endResult := .ok ()
    submitResult := .ok () }

/-- Scenario E of the claim: frame 1 fails during image acquisition and
every later frame would succeed. -/
def failThenOkSched : Nat → FrameEnv :=
  fun i => if i = 0 then failAcquireEnv else okFrameEnv

/-- Claim C1 is false on the code: in the source the
requestAnimationFrame(frame) call sits inside the try block, after the
submit, so a frame whose acquisition step fails is caught and logged but
does not request the next invocation; running the loop on the scenario of
the claim (frame 1 fails, frame 2 would succeed) executes exactly one
frame in a five-frame observation window, and no command buffer is ever
submitted afterwards. -/
theorem C1_counterexample :
    (frame failAcquireEnv).rescheduled = false ∧
    (frame failAcquireEnv).logs = [⟨.js (.vObj 0), "render_frame"⟩] ∧
    (frame failAcquireEnv).propagated = none ∧
    runLoop failThenOkSched 0 5 = [frame failAcquireEnv] ∧
    (frame failAcquireEnv).submitted = false := by
  decide

/-- Claim C1 as amended: when any of steps 1 to 4 of a frame invocation
fails, the loop catches the failure locally, logs it once tagged phase
render_frame, and never re-throws it; but it does not request the next
invocation — the failing frame submits no command buffer and is the last
invocation the loop runs. -/
theorem C1_amended_frame_failure :
    ∀ (fe : FrameEnv) (e : JSValue), firstFailure fe = some e →
      frame fe = FrameResult.caught e ∧
      (frame fe).logs = [⟨.js e, "render_frame"⟩] ∧
      (frame fe).propagated = none ∧
      (frame fe).rescheduled = false ∧
      (frame fe).submitted = false ∧
      ∀ (sched : Nat → FrameEnv) (i fuel : Nat), sched i = fe →
        runLoop sched i (fuel + 1) = [frame fe] := by
  intro fe e h
  obtain ⟨ar, br, er, sr⟩ := fe
  cases ar with
  | error ea =>
    simp only [firstFailure, Option.some.injEq] at h
    subst h
    refine ⟨rfl, rfl, rfl, rfl, rfl, ?_⟩
    intro sched i fuel hs
    simp [runLoop, hs, frame, FrameResult.caught]
  | ok ua =>
    cases br with
    | error eb =>
      simp only [firstFailure, Option.some.injEq] at h
      subst h
      refine ⟨rfl, rfl, rfl, rfl, rfl, ?_⟩
      intro sched i fuel hs
      simp [runLoop, hs, frame, FrameResult.caught]
    | ok ub =>
      cases er with
      | error ee =>
        simp only [firstFailure, Option.some.injEq] at h
        subst h
        refine ⟨rfl, rfl, rfl, rfl, rfl, ?_⟩
        intro sched i fuel hs
        simp [runLoop, hs, frame, FrameResult.caught]
      | ok ue =>
        cases sr with
        | error es =>
          simp only [firstFailure, Option.some.injEq] at h
          subst h
          refine ⟨rfl, rfl, rfl, rfl, rfl, ?_⟩
          intro sched i fuel hs
          simp [runLoop, hs, frame, FrameResult.caught]
        | ok us =>
          simp [firstFailure] at h

/-- Witness for the amended claim C1, at the concrete scenario where
acquisition throws an opaque platform value. -/
theorem C1_amended_witness :
    frame failAcquireEnv = FrameResult.caught (.vObj 0) ∧
    runLoop failThenOkSched 0 3 = [frame failAcquireEnv] := by
  have h := C1_amended_frame_failure failAcquireEnv (.vObj 0) rfl
  exact ⟨h.1, h.2.2.2.2.2 failThenOkSched 0 2 rfl⟩

/-- Claim C5: whenever main throws, the steps attempted are exactly an
initial segment of the five-step order (so no later step is attempted and
no step is retried), the pipeline ends in the Failed state carrying the
thrown error's code, requestAnimationFrame is never called (the render
loop is never started), and the top-level catch reports the very error
once, tagged phase main_initialization. -/
theorem C5_fail_fast :
    ∀ (env : Env) (e : AppError), (mainRun env).outcome = .error e →
      (∃ k, (mainRun env).stepsAttempted = stepOrder.take k) ∧
      (mainRun env).states.getLast? = some (.Failed e.code) ∧
      (mainRun env).rafCalls = 0 ∧
      (mainTop env).2 = [⟨.app e, "main_initialization"⟩] := by
  intro env e h
  obtain ⟨c, g, a, d, ctx⟩ := env
  cases c with
  | none =>
    injection h with h
    subst h
    exact ⟨⟨1, rfl⟩, rfl, rfl, rfl⟩
  | some cu =>
    cases g with
    | false =>
      injection h with h
      subst h
      exact ⟨⟨2, rfl⟩, rfl, rfl, rfl⟩
    | true =>
      cases a with
      | none =>
        injection h with h
        subst h
        exact ⟨⟨3, rfl⟩, rfl, rfl, rfl⟩
      | some au =>
        cases d with
        | error x =>
          injection h with h
          subst h
          exact ⟨⟨4, rfl⟩, rfl, rfl, rfl⟩
        | ok du =>
          cases ctx with
          | none =>
            injection h with h
            subst h
            exact ⟨⟨5, rfl⟩, rfl, rfl, rfl⟩
          | some xu =>
            exact absurd h (by simp [mainRun])

/-- Witness for claim C5, at the environment where the canvas element is
missing. -/
theorem C5_fail_fast_witness :
    (∃ k, (mainRun ⟨none, true, some (), .ok (), some ()⟩).stepsAttempted =
      stepOrder.take k) ∧
    (mainRun ⟨none, true, some (), .ok (), some ()⟩).states.getLast? =
      some (.Failed (CanvasNotFoundError .vUndefined none).code) ∧
    (mainRun ⟨none, true, some (), .ok (), some ()⟩).rafCalls = 0 ∧
    (mainTop ⟨none, true, some (), .ok (), some ()⟩).2 =
      [⟨.app (CanvasNotFoundError .vUndefined none), "main_initialization"⟩] :=
  C5_fail_fast ⟨none, true, some (), .ok (), some ()⟩
    (CanvasNotFoundError .vUndefined none) rfl

/-- Nodup and Failed-is-last facts for the state trace of a run failing
at the surface lookup. -/
lemma stateFacts₁ :
    ([.Idle, .Failed ⟨.not_found, .canvas⟩] : List PipelineState).Nodup ∧
    ∀ c, PipelineState.Failed c ∈
        ([.Idle, .Failed ⟨.not_found, .canvas⟩] : List PipelineState) →
      ([.Idle, .Failed ⟨.not_found, .canvas⟩] : List PipelineState).getLast? =
        some (.Failed c) := by
  decide

/-- Nodup and Failed-is-last facts for the state trace of a run failing
at the capability check. -/
lemma stateFacts₂ :
    ([.Idle, .TargetResolved, .Failed ⟨.unavailable, .webgpu⟩] : List PipelineState).Nodup ∧
    ∀ c, PipelineState.Failed c ∈
        ([.Idle, .TargetResolved, .Failed ⟨.unavailable, .webgpu⟩] : List PipelineState) →
      ([.Idle, .TargetResolved, .Failed ⟨.unavailable, .webgpu⟩] : List PipelineState).getLast? =
        some (.Failed c) := by
  decide

/-- Nodup and Failed-is-last facts for the state trace of a run failing
at the adapter request. -/
lemma stateFacts₃ :
    ([.Idle, .TargetResolved, .CapabilityChecked,
      .Failed ⟨.not_found, .adapter⟩] : List PipelineState).Nodup ∧
    ∀ c, PipelineState.Failed c ∈
        ([.Idle, .TargetResolved, .CapabilityChecked,
          .Failed ⟨.not_found, .adapter⟩] : List PipelineState) →
      ([.Idle, .TargetResolved, .CapabilityChecked,
        .Failed ⟨.not_found, .adapter⟩] : List PipelineState).getLast? =
        some (.Failed c) := by
  decide

/-- Nodup and Failed-is-last facts for the state trace of a run failing
at the device request. -/
lemma stateFacts₄ :
    ([.Idle, .TargetResolved, .CapabilityChecked, .AdapterAcquired,
      .Failed ⟨.failed, .device⟩] : List PipelineState).Nodup ∧
    ∀ c, PipelineState.Failed c ∈
        ([.Idle, .TargetResolved, .CapabilityChecked, .AdapterAcquired,
          .Failed ⟨.failed, .device⟩] : List PipelineState) →
      ([.Idle, .TargetResolved, .CapabilityChecked, .AdapterAcquired,
        .Failed ⟨.failed, .device⟩] : List PipelineState).getLast? =
        some (.Failed c) := by
  decide

/-- Nodup and Failed-is-last facts for the state trace of a run failing
at the context configuration. -/
lemma stateFacts₅ :
    ([.Idle, .TargetResolved, .CapabilityChecked, .AdapterAcquired, .DeviceAcquired,
      .Failed ⟨.initialization_failed, .context⟩] : List PipelineState).Nodup ∧
    ∀ c, PipelineState.Failed c ∈
        ([.Idle, .TargetResolved, .CapabilityChecked, .AdapterAcquired, .DeviceAcquired,
          .Failed ⟨.initialization_failed, .context⟩] : List PipelineState) →
      ([.Idle, .TargetResolved, .CapabilityChecked, .AdapterAcquired, .DeviceAcquired,
        .Failed ⟨.initialization_failed, .context⟩] : List PipelineState).getLast? =
        some (.Failed c) := by
  decide

/-- Nodup and Failed-is-last facts for the state trace of a fully
successful run. -/
lemma stateFacts₆ :
    stateChain.Nodup ∧
    ∀ c, PipelineState.Failed c ∈ stateChain →
      stateChain.getLast? = some (.Failed c) := by
  decide

/-- Claim C6: the five steps run in the strict source order, the visited
states are an initial segment of the forward chain, possibly capped by a
terminal Failed state, no state is revisited, a Failed state is always
final (Failed is absorbing), and each failing step produces exactly its
designated code (the spec surface api is the source surface webgpu and
display_target is canvas). -/
theorem C6_pipeline_order :
    (∀ env : Env,
      (∃ k, (mainRun env).stepsAttempted = stepOrder.take k) ∧
      ((mainRun env).states = stateChain ∨
        ∃ k c, (mainRun env).states = stateChain.take k ++ [PipelineState.Failed c]) ∧
      (mainRun env).states.Nodup ∧
      (∀ c, PipelineState.Failed c ∈ (mainRun env).states →
        (mainRun env).states.getLast? = some (PipelineState.Failed c))) ∧
    (∀ g a d ctx, (mainRun ⟨none, g, a, d, ctx⟩).states.getLast? =
      some (.Failed ⟨.not_found, .canvas⟩)) ∧
    (∀ cu a d ctx, (mainRun ⟨some cu, false, a, d, ctx⟩).states.getLast? =
      some (.Failed ⟨.unavailable, .webgpu⟩)) ∧
    (∀ cu d ctx, (mainRun ⟨some cu, true, none, d, ctx⟩).states.getLast? =
      some (.Failed ⟨.not_found, .adapter⟩)) ∧
    (∀ cu au x ctx, (mainRun ⟨some cu, true, some au, .error x, ctx⟩).states.getLast? =
      some (.Failed ⟨.failed, .device⟩)) ∧
    (∀ cu au du, (mainRun ⟨some cu, true, some au, .ok du, none⟩).states.getLast? =
      some (.Failed ⟨.initialization_failed, .context⟩)) := by
  constructor
  · rintro ⟨(_ | cu), g, a, d, ctx⟩
    · exact ⟨⟨1, rfl⟩, .inr ⟨1, _, rfl⟩, stateFacts₁.1, stateFacts₁.2⟩
    · cases g
      · exact ⟨⟨2, rfl⟩, .inr ⟨2, _, rfl⟩, stateFacts₂.1, stateFacts₂.2⟩
      · rcases a with _ | au
        · exact ⟨⟨3, rfl⟩, .inr ⟨3, _, rfl⟩, stateFacts₃.1, stateFacts₃.2⟩
        · rcases d with x | du
          · exact ⟨⟨4, rfl⟩, .inr ⟨4, _, rfl⟩, stateFacts₄.1, stateFacts₄.2⟩
          · rcases ctx with _ | xu
            · exact ⟨⟨5, rfl⟩, .inr ⟨5, _, rfl⟩, stateFacts₅.1, stateFacts₅.2⟩
            · exact ⟨⟨5, rfl⟩, .inl rfl, stateFacts₆.1, stateFacts₆.2⟩
  · exact ⟨fun g a d ctx => rfl, fun cu a d ctx => rfl, fun cu d ctx => rfl,
      fun cu au x ctx => rfl, fun cu au du => rfl⟩

/-- Witness for claim C6: Failed absorbing, evaluated at the environment
where the canvas is missing. -/
theorem C6_pipeline_order_witness :
    (mainRun ⟨none, true, none, .ok (), none⟩).states.getLast? =
      some (PipelineState.Failed ⟨.not_found, .canvas⟩) := by
  have h := (C6_pipeline_order.1 ⟨none, true, none, .ok (), none⟩).2.2.2
    ⟨.not_found, .canvas⟩
  exact h (by decide)

/-- Claim C7: when the device request rejects with cause x, main throws
DeviceRequestFailedError wrapping x as its cause, with the fixed device
message, not shown to the user but logged, and the pipeline ends in
Failed with code failed:device. -/
theorem C7_device_failure :
    ∀ (x : JSValue) (cu au : Unit) (ctx : Option Unit),
      (mainRun ⟨some cu, true, some au, .error x, ctx⟩).outcome =
        .error (DeviceRequestFailedError x none) ∧
      (DeviceRequestFailedError x none).cause = x ∧
      (DeviceRequestFailedError x none).message = "Failed to request a GPU device." ∧
      (DeviceRequestFailedError x none).shouldShowToUser = false ∧
      (DeviceRequestFailedError x none).shouldLog = true ∧
      (mainRun ⟨some cu, true, some au, .error x, ctx⟩).states.getLast? =
        some (.Failed ⟨.failed, .device⟩) := by
  intro x cu au ctx
  exact ⟨rfl, rfl, rfl, rfl, rfl, rfl⟩

/-- Claim C8: when all five steps succeed, the pipeline reaches Running,
requestAnimationFrame is called exactly once by main before it returns,
and main returns normally. -/
theorem C8_success_running :
    ∀ (cu au du xu : Unit),
      (mainRun ⟨some cu, true, some au, .ok du, some xu⟩).states.getLast? =
        some PipelineState.Running ∧
      (mainRun ⟨some cu, true, some au, .ok du, some xu⟩).rafCalls = 1 ∧
      (mainRun ⟨some cu, true, some au, .ok du, some xu⟩).outcome = .ok () ∧
      (mainTop ⟨some cu, true, some au, .ok du, some xu⟩).2 = [] := by
  intro cu au du xu
  exact ⟨rfl, rfl, rfl, rfl⟩

/-- Claim C9: serialization is a deterministic, side-effect free function
of the error's stored fields alone: two errors agreeing on all fields
serialize identically, and the serialized output reproduces the stored
code, message, kind and surface, with the visibility recomputed by pure
table lookup on the surface. -/
theorem C9_serialization_deterministic :
    ∀ e₁ e₂ : AppError,
      e₁.code = e₂.code → e₁.message = e₂.message → e₁.type = e₂.type →
      e₁.surface = e₂.surface → e₁.cause = e₂.cause → e₁.stack = e₂.stack →
      e₁.toJSON = e₂.toJSON ∧
      e₁.toJSON.visibility = visibilityBySurface e₁.surface ∧
      e₁.toJSON.code = e₁.code ∧ e₁.toJSON.message = e₁.message ∧
      e₁.toJSON.type = e₁.type ∧ e₁.toJSON.surface = e₁.surface := by
  intro e₁ e₂ h1 h2 h3 h4 h5 h6
  obtain ⟨t₁, s₁, c₁, k₁, m₁, st₁⟩ := e₁
  obtain ⟨t₂, s₂, c₂, k₂, m₂, st₂⟩ := e₂
  simp_all [AppError.toJSON, AppError.getVisibility]

/-- Witness for claim C9, serializing one concrete error twice. -/
theorem C9_serialization_witness :
    (AppError.ofCode ⟨.failed, .device⟩ (.vNum 7) (some "trace")).toJSON =
      (AppError.ofCode ⟨.failed, .device⟩ (.vNum 7) (some "trace")).toJSON ∧
    (AppError.ofCode ⟨.failed, .device⟩ (.vNum 7) (some "trace")).toJSON.visibility =
      visibilityBySurface (AppError.ofCode ⟨.failed, .device⟩ (.vNum 7) (some "trace")).surface ∧
    (AppError.ofCode ⟨.failed, .device⟩ (.vNum 7) (some "trace")).toJSON.code =
      (AppError.ofCode ⟨.failed, .device⟩ (.vNum 7) (some "trace")).code ∧
    (AppError.ofCode ⟨.failed, .device⟩ (.vNum 7) (some "trace")).toJSON.message =
      (AppError.ofCode ⟨.failed, .device⟩ (.vNum 7) (some "trace")).message ∧
    (AppError.ofCode ⟨.failed, .device⟩ (.vNum 7) (some "trace")).toJSON.type =
      (AppError.ofCode ⟨.failed, .device⟩ (.vNum 7) (some "trace")).type ∧
    (AppError.ofCode ⟨.failed, .device⟩ (.vNum 7) (some "trace")).toJSON.surface =
      (AppError.ofCode ⟨.failed, .device⟩ (.vNum 7) (some "trace")).surface :=
  C9_serialization_deterministic
    (AppError.ofCode ⟨.failed, .device⟩ (.vNum 7) (some "trace"))
    (AppError.ofCode ⟨.failed, .device⟩ (.vNum 7) (some "trace"))
    rfl rfl rfl rfl rfl rfl

/-- Claim C10: the serialized output has a cause field exactly when the
stored cause is truthy, even though the cause field on the error object
itself is always the stored value; a falsy stored cause (0, empty string,
false, null) is dropped; and the same truthiness filter governs the stack
field. -/
theorem C10_falsy_cause_dropped :
    ∀ (c : ErrorCode) (k : JSValue) (st : Option String),
      ((AppError.ofCode c k st).toJSON.cause ≠ none ↔ k.truthy = true) ∧
      (AppError.ofCode c k st).cause = k ∧
      ((AppError.ofCode c k st).toJSON.cause = some k ↔ k.truthy = true) ∧
      ((AppError.ofCode c k st).toJSON.stack ≠ none ↔ stackTruthy st = true) ∧
      ((k = .vNum 0 ∨ k = .vStr "" ∨ k = .vBool false ∨ k = .vNull) →
        (AppError.ofCode c k st).toJSON.cause = none) := by
  intro c k st
  refine ⟨?_, rfl, ?_, ?_, ?_⟩
  · cases hk : JSValue.truthy k <;> simp [AppError.toJSON, AppError.ofCode, hk]
  · cases hk : JSValue.truthy k <;> simp [AppError.toJSON, AppError.ofCode, hk]
  · cases st with
    | none => simp [AppError.toJSON, AppError.ofCode, stackTruthy]
    | some s =>
      cases hs : stackTruthy (some s) <;>
        simp_all [AppError.toJSON, AppError.ofCode, stackTruthy]
  · rintro (rfl | rfl | rfl | rfl) <;> rfl

/-- Witness for claim C10, with the falsy cause 0 and an empty stack. -/
theorem C10_falsy_cause_witness :
    (AppError.ofCode ⟨.failed, .device⟩ (.vNum 0) (some "")).toJSON.cause = none ∧
    (AppError.ofCode ⟨.failed, .device⟩ (.vNum 0) (some "")).cause = .vNum 0 :=
  ⟨(C10_falsy_cause_dropped ⟨.failed, .device⟩ (.vNum 0) (some "")).2.2.2.2 (.inl rfl),
   (C10_falsy_cause_dropped ⟨.failed, .device⟩ (.vNum 0) (some "")).2.1⟩

end WebAnim
